import Mathlib

/-!
Verification development for the NBAZoneUpdates bot (src/nba_zone_bot.py).

The repository stores follows in the sqlite table user_player_follows
(chat_id, player_id, player_full_name COLLATE NOCASE, primary key
(chat_id, player_id)) and delivered notifications in sent_notifications
(chat_id, player_id, game_id, notification_type, primary key on all four).
Both tables are modelled as Lean lists of rows; SQL statements are
translated operation by operation.  Machine times are modelled as minutes
in the fixed reference timezone (Asia/Singapore has no DST, so naive
minute arithmetic is faithful).  A storage layer failure (sqlite3.Error)
is modelled with Except.
-/

set_option autoImplicit false

/-- A row of the user_player_follows table. -/
structure FollowRow where
  chat_id : Int
  player_id : Int
  player_full_name : String
deriving DecidableEq, Repr

/-- A row of the sent_notifications table (the notification ledger). -/
structure NotifRow where
  chat_id : Int
  player_id : Int
  game_id : String
  notification_type : String
deriving DecidableEq, Repr

/-- A sqlite3.Error raised by the storage layer. -/
structure DbError where
  msg : String
deriving DecidableEq, Repr

/-- ASCII lower casing, as used by the sqlite NOCASE collation. -/
def asciiLower (c : Char) : Char :=
  if 'A' ≤ c ∧ c ≤ 'Z' then Char.ofNat (c.toNat + 32) else c

/-- String equality under the NOCASE collation of player_full_name. -/
def nocaseEq (a b : String) : Bool :=
  a.data.map asciiLower == b.data.map asciiLower

/-- WHERE clause of the DELETE in remove_follow: chat_id matches and
player_full_name matches under the NOCASE collation of the column. -/
def follow_matches (chat_id : Int) (player_name : String) (r : FollowRow) : Bool :=
  r.chat_id == chat_id && nocaseEq r.player_full_name player_name

/-- add_follow (src/nba_zone_bot.py lines 97-110): INSERT OR IGNORE keyed on
the primary key (chat_id, player_id); returns cursor.rowcount > 0 together
with the updated table. -/
def add_follow (db : List FollowRow) (chat_id player_id : Int) (player_name : String) :
    Bool × List FollowRow :=
  if db.any (fun r => r.chat_id == chat_id && r.player_id == player_id) then
    (false, db)
  else
    (true, db ++ [⟨chat_id, player_id, player_name⟩])

/-- remove_follow (src/nba_zone_bot.py lines 112-136).  First DELETE removes
every follow row matching (chat_id, player_full_name).  If that deleted
anything, a second DELETE prunes sent_notifications where player_id equals
the scalar subquery SELECT player_id FROM user_player_follows WHERE
chat_id = ? AND player_full_name = ? LIMIT 1 - evaluated against the table
AFTER the first DELETE, and a comparison with a NULL scalar matches no row.
The returned Bool is cursor.rowcount > 0 read after the LAST executed
statement, exactly as in the Python source.  Result: (returned flag,
follows table, notifications table). -/
def remove_follow (follows : List FollowRow) (notifs : List NotifRow)
    (chat_id : Int) (player_name : String) : Bool × List FollowRow × List NotifRow :=
  let deleted1 := (follows.filter (follow_matches chat_id player_name)).length
  let follows1 := follows.filter (fun r => !(follow_matches chat_id player_name r))
  if deleted1 > 0 then
    match ((follows1.filter (follow_matches chat_id player_name)).head?).map
        FollowRow.player_id with
    | some pid =>
        let deleted2 := (notifs.filter
          (fun n => n.chat_id == chat_id && n.player_id == pid)).length
        let notifs1 := notifs.filter
          (fun n => !(n.chat_id == chat_id && n.player_id == pid))
        (deleted2 > 0, follows1, notifs1)
    | none =>
        -- player_id = NULL: the second DELETE removes nothing, rowcount is 0
        (false, follows1, notifs)
  else
    (false, follows, notifs)

/-- WHERE clause shared by has_notification_been_sent and the INSERT OR
IGNORE primary key check of mark_notification_sent. -/
def notif_matches (chat_id player_id : Int) (game_id notification_type : String)
    (n : NotifRow) : Bool :=
  n.chat_id == chat_id && n.player_id == player_id && n.game_id == game_id &&
    n.notification_type == notification_type

/-- has_notification_been_sent (src/nba_zone_bot.py lines 174-186): SELECT 1
on the four-column key; on sqlite3.Error the handler returns False. -/
def has_notification_been_sent (db : Except DbError (List NotifRow))
    (chat_id player_id : Int) (game_id notification_type : String) : Bool :=
  match db with
  | Except.ok rows => rows.any (notif_matches chat_id player_id game_id notification_type)
  | Except.error _ => false

/-- mark_notification_sent (src/nba_zone_bot.py lines 188-199): INSERT OR
IGNORE on the four-column primary key; on sqlite3.Error the handler logs
and leaves the table as it is. -/
def mark_notification_sent (db : Except DbError (List NotifRow))
    (chat_id player_id : Int) (game_id notification_type : String) :
    Except DbError (List NotifRow) :=
  match db with
  | Except.ok rows =>
      if rows.any (notif_matches chat_id player_id game_id notification_type) then
        Except.ok rows
      else
        Except.ok (rows ++ [⟨chat_id, player_id, game_id, notification_type⟩])
  | Except.error e => Except.error e

/-- Outcome of context.bot.send_message for one chat. -/
inductive SendResult where
  | accepted
  | forbidden
  | badRequest
  | otherError
deriving DecidableEq, Repr

/-- The dispatch loop over chat_ids in check_upcoming_games
(src/nba_zone_bot.py lines 314-327): for each chat, if
has_notification_been_sent is true the chat is skipped; otherwise a send is
attempted and only an accepted send is marked in the ledger.  Returns the
list of chats for which a delivery attempt was made, and the final ledger. -/
def notify_chats_upcoming (transport : Int → SendResult) (player_id : Int) (game_id : String) :
    List Int → Except DbError (List NotifRow) → List Int × Except DbError (List NotifRow)
  | [], ledger => ([], ledger)
  | chat_id :: rest, ledger =>
      if has_notification_been_sent ledger chat_id player_id game_id "upcoming" then
        notify_chats_upcoming transport player_id game_id rest ledger
      else
        let ledger1 :=
          match transport chat_id with
          | SendResult.accepted =>
              mark_notification_sent ledger chat_id player_id game_id "upcoming"
          | _ => ledger
        let r := notify_chats_upcoming transport player_id game_id rest ledger1
        (chat_id :: r.1, r.2)

/-- The dispatch loop over chat_ids in check_finished_games
(src/nba_zone_bot.py lines 437-446), identical shape with
notification_type set to the string used by the source for completed
games. -/
def notify_chats_finished (transport : Int → SendResult) (player_id : Int) (game_id : String) :
    List Int → Except DbError (List NotifRow) → List Int × Except DbError (List NotifRow)
  | [], ledger => ([], ledger)
  | chat_id :: rest, ledger =>
      if has_notification_been_sent ledger chat_id player_id game_id "finished" then
        notify_chats_finished transport player_id game_id rest ledger
      else
        let ledger1 :=
          match transport chat_id with
          | SendResult.accepted =>
              mark_notification_sent ledger chat_id player_id game_id "finished"
          | _ => ledger
        let r := notify_chats_finished transport player_id game_id rest ledger1
        (chat_id :: r.1, r.2)

/-- One row of the LeagueGameFinder data frame used by
check_upcoming_games (each game appears once per participating team). -/
structure GameRow where
  game_id : String
  team_id : Int
  team_abbreviation : String
  matchup : String
deriving DecidableEq, Repr

/-- The function-scope name bindings of check_upcoming_games that are
assigned only inside the branch where an opponent row was found
(opponent_id on line 264, home_away_indicator on line 267).  A value of
none models a Python local that has not been bound yet in this run of the
function. -/
structure JobEnv where
  opponent_id : Option Int
  home_away_indicator : Option String
deriving DecidableEq, Repr

/-- A Python runtime error escaping a statement. -/
inductive PyError where
  | nameError : String → PyError
deriving DecidableEq, Repr

/-- Lookup of the opponent row (src/nba_zone_bot.py line 262): the first
row of the full frame with the same GAME_ID and a different TEAM_ID. -/
def opponent_row (all_games : List GameRow) (g : GameRow) : Option GameRow :=
  (all_games.filter (fun r => r.game_id == g.game_id && !(r.team_id == g.team_id))).head?

/-- Lines 258-279 of check_upcoming_games: build team_ids for the game and
update the local bindings.  When an opponent row exists, team_ids gains the
opponent and both locals are (re)bound; when it does not, only the dead
local opponent_team_name is set to the placeholder, so the bindings carry
over unchanged from earlier loop iterations. -/
def resolve_opponent (all_games : List GameRow) (env : JobEnv) (g : GameRow) :
    List Int × JobEnv :=
  match opponent_row all_games g with
  | some r =>
      ([g.team_id, r.team_id],
       { opponent_id := some r.team_id,
         home_away_indicator := some (if g.matchup.contains '@' then "@" else "vs.") })
  | none => ([g.team_id], env)

/-- Lines 304-327 of check_upcoming_games, the body guarded by the
per-player try.  If the current team of the player is among team_ids, line
307 evaluates the local opponent_id whenever current_team_id equals the
TEAM_ID of the row (Python evaluates the conditional expression lazily),
and line 310 evaluates home_away_indicator; an unbound local raises
NameError.  Otherwise the chat loop runs and the player is marked
processed.  find_team_name models teams.find_team_by_id with the
placeholder fallback of line 309.  Returns (attempted chats, ledger,
whether the player was added to the processed set). -/
def player_body (transport : Int → SendResult) (find_team_name : Int → Option String)
    (env : JobEnv) (g : GameRow) (team_ids : List Int) (current_team_id player_id : Int)
    (chat_ids : List Int) (ledger : Except DbError (List NotifRow)) :
    Except PyError (List Int × Except DbError (List NotifRow) × Bool) :=
  if team_ids.contains current_team_id then
    match (if current_team_id == g.team_id then env.opponent_id else some g.team_id) with
    | none => Except.error (PyError.nameError "opponent_id")
    | some player_opponent_id =>
        let opponent_name := (find_team_name player_opponent_id).getD "opponent"
        match env.home_away_indicator with
        | none => Except.error (PyError.nameError "home_away_indicator")
        | some ha =>
            let _matchup_desc :=
              if ha == "vs." then "vs " ++ opponent_name else "@ " ++ opponent_name
            let r := notify_chats_upcoming transport player_id g.game_id chat_ids ledger
            Except.ok (r.1, r.2, true)
  else
    Except.ok ([], ledger, false)

/-- Lines 288-331 of check_upcoming_games: the loop over all follows for
one upcoming game.  playerTeam models CommonPlayerInfo (none stands for an
empty frame or a lookup failure, both of which skip the player).  Any
exception from the body is caught on line 329, logged and swallowed, and
the player is NOT added to the processed set.  Returns (attempted chats,
processed set, ledger). -/
def check_game_players (transport : Int → SendResult) (playerTeam : Int → Option Int)
    (find_team_name : Int → Option String) (g : GameRow) (team_ids : List Int)
    (env : JobEnv) :
    List (Int × List Int) → List Int → Except DbError (List NotifRow) →
      List Int × List Int × Except DbError (List NotifRow)
  | [], processed, ledger => ([], processed, ledger)
  | (player_id, chat_ids) :: rest, processed, ledger =>
      if processed.contains player_id then
        check_game_players transport playerTeam find_team_name g team_ids env
          rest processed ledger
      else
        match playerTeam player_id with
        | none =>
            check_game_players transport playerTeam find_team_name g team_ids env
              rest processed ledger
        | some current_team_id =>
            match player_body transport find_team_name env g team_ids current_team_id
                player_id chat_ids ledger with
            | Except.error _ =>
                check_game_players transport playerTeam find_team_name g team_ids env
                  rest processed ledger
            | Except.ok (atts, ledger1, did) =>
                let processed1 := if did then processed ++ [player_id] else processed
                let r := check_game_players transport playerTeam find_team_name g team_ids env
                  rest processed1 ledger1
                (atts ++ r.1, r.2)

/-- One row of the PlayerGameLog data frame used by check_finished_games. -/
structure LogRow where
  game_id : String
  player_name : String
deriving DecidableEq, Repr

/-- Lines 399-451 of check_finished_games, the per-player processing of the
game log for yesterday: an empty log skips the player; otherwise ONLY
log_df.iloc[0] is used (line 409), duplicate rows merely log a warning;
the (player, game) pair is skipped if already processed this pass, else the
chat loop runs and the pair is recorded as processed.  Returns (attempted
chats, ledger, processed pairs). -/
def process_finished_player (transport : Int → SendResult) (log_rows : List LogRow)
    (ledger : Except DbError (List NotifRow)) (processed : List (Int × String))
    (player_id : Int) (chat_ids : List Int) :
    List Int × Except DbError (List NotifRow) × List (Int × String) :=
  match log_rows.head? with
  | none => ([], ledger, processed)
  | some last_game =>
      let game_id := last_game.game_id
      if processed.contains (player_id, game_id) then
        ([], ledger, processed)
      else
        let r := notify_chats_finished transport player_id game_id chat_ids ledger
        (r.1, r.2, processed ++ [(player_id, game_id)])

/-- Numeric value of an ASCII digit. -/
def digit_val (c : Char) : Option Nat :=
  if '0' ≤ c ∧ c ≤ '9' then some (c.toNat - 48) else none

/-- Two ASCII digits. -/
def two_digits (a b : Char) : Option Nat := do
  let x ← digit_val a
  let y ← digit_val b
  pure (10 * x + y)

/-- Four ASCII digits. -/
def four_digits (a b c d : Char) : Option Nat := do
  let x ← two_digits a b
  let y ← two_digits c d
  pure (100 * x + y)

/-- Gregorian leap year. -/
def is_leap (y : Nat) : Bool :=
  (y % 4 == 0 && !(y % 100 == 0)) || y % 400 == 0

/-- Days of a month in the Gregorian calendar. -/
def days_in_month (y m : Nat) : Nat :=
  if m == 2 then (if is_leap y then 29 else 28)
  else if m == 4 || m == 6 || m == 9 || m == 11 then 30
  else 31

/-- Validity of a calendar date, as enforced by the pandas datetime
parser. -/
def valid_date (y m d : Nat) : Bool :=
  decide (1 ≤ m) && decide (m ≤ 12) && decide (1 ≤ d) && decide (d ≤ days_in_month y m)

/-- Days since 1970-01-01 of a Gregorian date (the standard civil-calendar
day count; all dates in the feed are CE, so truncating Int division agrees
with floor division). -/
def days_from_civil (y m d : Nat) : Int :=
  let yi : Int := if m ≤ 2 then (y : Int) - 1 else (y : Int)
  let era : Int := yi / 400
  let yoe : Int := yi - era * 400
  let mp : Int := ((m : Int) + 9) % 12
  let doy : Int := (153 * mp + 2) / 5 + (d : Int) - 1
  let doe : Int := yoe * 365 + yoe / 4 - yoe / 100 + doy
  era * 146097 + doe - 719468

/-- Midnight of a date, in minutes of the reference timezone. -/
def date_minutes (y m d : Nat) : Nat := (days_from_civil y m d).toNat * 1440

/-- First tolerated GAME_DATE encoding: ISO YYYY-MM-DD, the format the
default pandas to_datetime call accepts for LeagueGameFinder rows. -/
def parse_iso_date (s : String) : Option Nat :=
  match s.data with
  | [y1, y2, y3, y4, '-', m1, m2, '-', d1, d2] => do
      let y ← four_digits y1 y2 y3 y4
      let m ← two_digits m1 m2
      let d ← two_digits d1 d2
      if valid_date y m d then pure (date_minutes y m d) else none
  | _ => none

/-- Month from a three-letter abbreviation, case-insensitive as in the
strptime directive used on line 235. -/
def month_from_abbr (a b c : Char) : Option Nat :=
  match asciiLower a, asciiLower b, asciiLower c with
  | 'j', 'a', 'n' => some 1
  | 'f', 'e', 'b' => some 2
  | 'm', 'a', 'r' => some 3
  | 'a', 'p', 'r' => some 4
  | 'm', 'a', 'y' => some 5
  | 'j', 'u', 'n' => some 6
  | 'j', 'u', 'l' => some 7
  | 'a', 'u', 'g' => some 8
  | 's', 'e', 'p' => some 9
  | 'o', 'c', 't' => some 10
  | 'n', 'o', 'v' => some 11
  | 'd', 'e', 'c' => some 12
  | _, _, _ => none

/-- Second tolerated GAME_DATE encoding, the explicit fallback format of
lines 235 and 364 (for example APR 08, 2025). -/
def parse_mon_dd_yyyy (s : String) : Option Nat :=
  match s.data with
  | [a, b, c, ' ', d1, d2, ',', ' ', y1, y2, y3, y4] => do
      let m ← month_from_abbr a b c
      let d ← two_digits d1 d2
      let y ← four_digits y1 y2 y3 y4
      if valid_date y m d then pure (date_minutes y m d) else none
  | _ => none

/-- Per-row effect of the GAME_DATE parsing of lines 228-238 and 359-367:
the primary encoding is tried, then the fallback; a row failing both gets
NaT, modelled as none. -/
def parse_game_date (s : String) : Option Nat :=
  match parse_iso_date s with
  | some t => some t
  | none => parse_mon_dd_yyyy s

/-- A row of the raw LeagueGameFinder feed before date parsing: GAME_ID,
the textual GAME_DATE, and the WL column (none while the game has no
recorded result). -/
structure FeedRow where
  game_id : String
  game_date : String
  wl : Option String
deriving DecidableEq, Repr

/-- The datetime.replace call zeroing hour, minute, second: midnight of
the day containing minute t. -/
def start_of_day (t : Nat) : Nat := t / 1440 * 1440

/-- tomorrow_et_start (line 205): now plus one day, clock zeroed. -/
def tomorrow_et_start (now_et : Nat) : Nat := start_of_day (now_et + 1440)

/-- day_after_tomorrow_et_start (line 206): now plus two days, clock
zeroed. -/
def day_after_tomorrow_et_start (now_et : Nat) : Nat := start_of_day (now_et + 2 * 1440)

/-- The boolean mask of lines 241-244: lower bound inclusive, upper bound
exclusive. -/
def upcoming_filter (now_et t : Nat) : Bool :=
  decide (tomorrow_et_start now_et ≤ t) && decide (t < day_after_tomorrow_et_start now_et)

/-- Row selection of the upcoming pass (lines 228-244): a row whose
GAME_DATE fails both parses gets NaT, and every comparison with NaT is
false, so the row is dropped; parsed rows are kept exactly when inside the
window. -/
def select_upcoming (now_et : Nat) (rows : List FeedRow) : List FeedRow :=
  rows.filter (fun r =>
    match parse_game_date r.game_date with
    | some t => upcoming_filter now_et t
    | none => false)

/-- Row selection of the finished pass (lines 358-373): the parsed date
must equal yesterday (as a calendar day) and WL must be non-null;
unparseable rows get NaT and are dropped. -/
def select_finished (yesterday_day : Nat) (rows : List FeedRow) : List FeedRow :=
  rows.filter (fun r =>
    match parse_game_date r.game_date with
    | some t => (t / 1440 == yesterday_day) && r.wl.isSome
    | none => false)

/-- Written from the words of the specification: start of tomorrow as a
midnight in the reference timezone, one day after the midnight of today. -/
def spec_start_of_tomorrow (now_et : Nat) : Nat := start_of_day now_et + 1440

/-- Written from the words of the specification: start of the day after
tomorrow as a midnight in the reference timezone. -/
def spec_start_of_day_after_tomorrow (now_et : Nat) : Nat := start_of_day now_et + 2 * 1440

section helper_lemmas

variable {α : Type}

lemma any_false_filter_eq_nil (p : α → Bool) (l : List α) (h : l.any p = false) :
    l.filter p = [] := by
  induction l with
  | nil => rfl
  | cons a t ih =>
      rw [List.any_cons, Bool.or_eq_false_iff] at h
      rw [List.filter_cons, h.1]
      exact ih h.2

lemma filter_length_le_of_imp (p q : α → Bool) (l : List α)
    (h : ∀ x, p x = true → q x = true) :
    (l.filter p).length ≤ (l.filter q).length := by
  induction l with
  | nil => simp
  | cons a t ih =>
      rw [List.filter_cons, List.filter_cons]
      cases hp : p a with
      | false =>
          cases hq : q a with
          | false => simpa using ih
          | true => simp; omega
      | true =>
          rw [h a hp]
          simpa using ih

lemma mark_sent_ok (rows : List NotifRow) (c p : Int) (g ty : String) :
    ∃ rows1, mark_notification_sent (Except.ok rows) c p g ty = Except.ok rows1 ∧
      ∀ q : NotifRow → Bool, rows.any q = true → rows1.any q = true := by
  unfold mark_notification_sent
  by_cases h : rows.any (notif_matches c p g ty) = true
  · exact ⟨rows, by simp [h], fun q hq => hq⟩
  · refine ⟨rows ++ [⟨c, p, g, ty⟩], by simp [h], fun q hq => ?_⟩
    rw [List.any_append, hq, Bool.true_or]

end helper_lemmas

/-- C5: starting from a store without the (subscriber, entity) pair, the
first follow returns the added outcome (true), the second returns the
already_following outcome (false), exactly one subscription row for the
pair exists afterwards, and both calls are total, never surfacing an
error. -/
theorem add_follow_twice_idempotent (db : List FollowRow) (chat pid : Int) (nm nm2 : String)
    (h : db.any (fun r => r.chat_id == chat && r.player_id == pid) = false) :
    (add_follow db chat pid nm).1 = true ∧
    (add_follow (add_follow db chat pid nm).2 chat pid nm2).1 = false ∧
    ((add_follow (add_follow db chat pid nm).2 chat pid nm2).2.filter
      (fun r => r.chat_id == chat && r.player_id == pid)).length = 1 := by
  have hfalse : ¬ db.any (fun r => r.chat_id == chat && r.player_id == pid) = true := by
    rw [h]; simp
  have hsnd : (add_follow db chat pid nm).2 = db ++ [⟨chat, pid, nm⟩] := by
    simp [add_follow, hfalse]
  have hany2 : (db ++ [(⟨chat, pid, nm⟩ : FollowRow)]).any
      (fun r => r.chat_id == chat && r.player_id == pid) = true := by
    rw [List.any_append, h]
    simp
  refine ⟨by simp [add_follow, hfalse], ?_, ?_⟩
  · rw [hsnd]
    simp [add_follow, hany2]
  · rw [hsnd]
    have h2 : (add_follow (db ++ [(⟨chat, pid, nm⟩ : FollowRow)]) chat pid nm2).2 =
        db ++ [⟨chat, pid, nm⟩] := by
      simp [add_follow, hany2]
    rw [h2, List.filter_append, any_false_filter_eq_nil _ _ h]
    simp

/-- C5 witness: both outcomes and the single-row count at a concrete
fresh store. -/
theorem add_follow_twice_idempotent_witness :
    (add_follow [] 42 7 "LeBron James").1 = true ∧
    (add_follow (add_follow [] 42 7 "LeBron James").2 42 7 "LeBron James").1 = false ∧
    ((add_follow (add_follow [] 42 7 "LeBron James").2 42 7 "LeBron James").2.filter
      (fun r => r.chat_id == 42 && r.player_id == 7)).length = 1 :=
  add_follow_twice_idempotent [] 42 7 "LeBron James" "LeBron James" (by decide)

/-- C6: under the primary key invariant (at most one ledger row for the
tuple), mark_notification_sent followed by has_notification_been_sent on
the same tuple returns true, a second mark is a no-op rather than an
error, and afterwards exactly one ledger record for the tuple exists. -/
theorem mark_sent_then_has_sent (rows : List NotifRow) (chat player : Int) (game ty : String)
    (hpk : (rows.filter (notif_matches chat player game ty)).length ≤ 1) :
    has_notification_been_sent (mark_notification_sent (Except.ok rows) chat player game ty)
      chat player game ty = true ∧
    mark_notification_sent (mark_notification_sent (Except.ok rows) chat player game ty)
      chat player game ty = mark_notification_sent (Except.ok rows) chat player game ty ∧
    ∃ rows1, mark_notification_sent (Except.ok rows) chat player game ty = Except.ok rows1 ∧
      (rows1.filter (notif_matches chat player game ty)).length = 1 := by
  by_cases h : rows.any (notif_matches chat player game ty) = true
  · have hmark : mark_notification_sent (Except.ok rows) chat player game ty =
        Except.ok rows := by
      simp [mark_notification_sent, h]
    refine ⟨by rw [hmark]; simpa [has_notification_been_sent] using h,
      by rw [hmark, hmark], rows, hmark, ?_⟩
    have hpos : 0 < (rows.filter (notif_matches chat player game ty)).length := by
      rw [List.any_eq_true] at h
      obtain ⟨x, hx, hpx⟩ := h
      have : x ∈ rows.filter (notif_matches chat player game ty) :=
        List.mem_filter.mpr ⟨hx, hpx⟩
      exact List.length_pos.mpr (List.ne_nil_of_mem this)
    omega
  · have h0 : rows.any (notif_matches chat player game ty) = false := by
      revert h; cases rows.any (notif_matches chat player game ty) <;> simp
    have hself : notif_matches chat player game ty ⟨chat, player, game, ty⟩ = true := by
      simp [notif_matches]
    have hmark : mark_notification_sent (Except.ok rows) chat player game ty =
        Except.ok (rows ++ [⟨chat, player, game, ty⟩]) := by
      simp [mark_notification_sent, h]
    have hany2 : (rows ++ [(⟨chat, player, game, ty⟩ : NotifRow)]).any
        (notif_matches chat player game ty) = true := by
      rw [List.any_append]
      simp [hself]
    refine ⟨by rw [hmark]; simpa [has_notification_been_sent] using hany2,
      by rw [hmark]; simp [mark_notification_sent, hany2],
      rows ++ [⟨chat, player, game, ty⟩], hmark, ?_⟩
    rw [List.filter_append, any_false_filter_eq_nil _ _ h0]
    simp [hself]

/-- C6 witness: starting from an empty ledger with the concrete tuple. -/
theorem mark_sent_then_has_sent_witness :
    has_notification_been_sent
      (mark_notification_sent (Except.ok []) 42 7 "0012345" "upcoming") 42 7 "0012345"
      "upcoming" = true ∧
    mark_notification_sent (mark_notification_sent (Except.ok []) 42 7 "0012345" "upcoming")
      42 7 "0012345" "upcoming" =
      mark_notification_sent (Except.ok []) 42 7 "0012345" "upcoming" ∧
    ∃ rows1, mark_notification_sent (Except.ok []) 42 7 "0012345" "upcoming" =
      Except.ok rows1 ∧
      (rows1.filter (notif_matches 42 7 "0012345" "upcoming")).length = 1 :=
  mark_sent_then_has_sent [] 42 7 "0012345" "upcoming" (by decide)

/-- C2: at the failing input the claim is violated by the source.  Chat 42
follows player 7 under the display name LeBron James; the case-insensitive
match succeeds and the subscription row is deleted, yet remove_follow
returns false, because the source reads cursor.rowcount after the
follow-up DELETE on sent_notifications, whose scalar subquery runs against
the already-emptied follow table and therefore deletes nothing. -/
theorem remove_follow_returns_false_on_success :
    follow_matches 42 "lebron james" ⟨42, 7, "LeBron James"⟩ = true ∧
    (remove_follow [⟨42, 7, "LeBron James"⟩] [] 42 "lebron james").2.1 = [] ∧
    (remove_follow [⟨42, 7, "LeBron James"⟩] [] 42 "lebron james").1 = false := by
  refine ⟨by decide, by decide, by decide⟩

/-- C3: at the failing input the ledger is not garbage-collected.  The
subscription row of chat 42 for player 7 is deleted, but the
NotificationRecord for the same (subscriber, entity) pair survives: the
scalar subquery that should recover player_id runs after the follow row
is gone, yields NULL, and the pruning DELETE matches nothing. -/
theorem remove_follow_leaves_notifications :
    (remove_follow [⟨42, 7, "LeBron James"⟩] [⟨42, 7, "0012345", "upcoming"⟩]
      42 "LeBron James").2.1 = [] ∧
    (remove_follow [⟨42, 7, "LeBron James"⟩] [⟨42, 7, "0012345", "upcoming"⟩]
      42 "LeBron James").2.2 = [⟨42, 7, "0012345", "upcoming"⟩] := by
  refine ⟨by decide, by decide⟩

/-- C4: at the failing input the claim is violated by the source.  The
feed holds a single row for game 0012345 (team 10); player 7 plays for
team 10 and is followed by chat 42; the ledger is empty and the transport
would accept.  The fallback on line 279 only sets the dead local
opponent_team_name: line 307 then reads the never-bound local opponent_id,
the NameError is caught by the per-player handler, and the pass makes zero
delivery attempts and leaves the player unprocessed, instead of sending a
notification with a placeholder opponent label. -/
theorem upcoming_missing_opponent_row_skips_player :
    (let g : GameRow := ⟨"0012345", 10, "AAA", "AAA vs. BBB"⟩
     let p := resolve_opponent [g] ⟨none, none⟩ g
     check_game_players (fun _ => SendResult.accepted) (fun _ => some 10)
       (fun _ => some "Hawks") g p.1 p.2 [(7, [42])] [] (Except.ok [])) =
      ([], [], Except.ok []) ∧
    player_body (fun _ => SendResult.accepted) (fun _ => some "Hawks") ⟨none, none⟩
      ⟨"0012345", 10, "AAA", "AAA vs. BBB"⟩ [10] 10 7 [42] (Except.ok []) =
      Except.error (PyError.nameError "opponent_id") := by
  exact ⟨rfl, rfl⟩

lemma notify_upcoming_skips_sent (tr : Int → SendResult) (player chat : Int) (game : String)
    (chats : List Int) :
    ∀ rows : List NotifRow,
      rows.any (notif_matches chat player game "upcoming") = true →
      chat ∉ (notify_chats_upcoming tr player game chats (Except.ok rows)).1 := by
  induction chats with
  | nil =>
      intro rows _h
      simp [notify_chats_upcoming]
  | cons c rest ih =>
      intro rows h
      by_cases hc : has_notification_been_sent (Except.ok rows) c player game "upcoming" = true
      · simp only [notify_chats_upcoming, hc, if_true]
        exact ih rows h
      · have hc' : has_notification_been_sent (Except.ok rows) c player game "upcoming"
            = false := by
          revert hc
          cases has_notification_been_sent (Except.ok rows) c player game "upcoming" <;> simp
        have hne : chat ≠ c := by
          intro he
          apply hc
          subst he
          simpa [has_notification_been_sent] using h
        have hstep : ∃ rows1,
            (match tr c with
             | SendResult.accepted =>
                 mark_notification_sent (Except.ok rows) c player game "upcoming"
             | _ => Except.ok rows) = Except.ok rows1 ∧
            rows1.any (notif_matches chat player game "upcoming") = true := by
          cases tr c with
          | accepted =>
              obtain ⟨r1, hr1, hp⟩ := mark_sent_ok rows c player game "upcoming"
              exact ⟨r1, hr1, hp _ h⟩
          | forbidden => exact ⟨rows, rfl, h⟩
          | badRequest => exact ⟨rows, rfl, h⟩
          | otherError => exact ⟨rows, rfl, h⟩
        obtain ⟨rows1, h1, hpres⟩ := hstep
        simp only [notify_chats_upcoming, hc', Bool.false_eq_true, if_false, h1,
          List.mem_cons, not_or]
        exact ⟨hne, ih rows1 hpres⟩

lemma notify_finished_skips_sent (tr : Int → SendResult) (player chat : Int) (game : String)
    (chats : List Int) :
    ∀ rows : List NotifRow,
      rows.any (notif_matches chat player game "finished") = true →
      chat ∉ (notify_chats_finished tr player game chats (Except.ok rows)).1 := by
  induction chats with
  | nil =>
      intro rows _h
      simp [notify_chats_finished]
  | cons c rest ih =>
      intro rows h
      by_cases hc : has_notification_been_sent (Except.ok rows) c player game "finished" = true
      · simp only [notify_chats_finished, hc, if_true]
        exact ih rows h
      · have hc' : has_notification_been_sent (Except.ok rows) c player game "finished"
            = false := by
          revert hc
          cases has_notification_been_sent (Except.ok rows) c player game "finished" <;> simp
        have hne : chat ≠ c := by
          intro he
          apply hc
          subst he
          simpa [has_notification_been_sent] using h
        have hstep : ∃ rows1,
            (match tr c with
             | SendResult.accepted =>
                 mark_notification_sent (Except.ok rows) c player game "finished"
             | _ => Except.ok rows) = Except.ok rows1 ∧
            rows1.any (notif_matches chat player game "finished") = true := by
          cases tr c with
          | accepted =>
              obtain ⟨r1, hr1, hp⟩ := mark_sent_ok rows c player game "finished"
              exact ⟨r1, hr1, hp _ h⟩
          | forbidden => exact ⟨rows, rfl, h⟩
          | badRequest => exact ⟨rows, rfl, h⟩
          | otherError => exact ⟨rows, rfl, h⟩
        obtain ⟨rows1, h1, hpres⟩ := hstep
        simp only [notify_chats_finished, hc', Bool.false_eq_true, if_false, h1,
          List.mem_cons, not_or]
        exact ⟨hne, ih rows1 hpres⟩

/-- C1: a tuple already recorded in the ledger gets zero delivery attempts
from a later pass that matches the same event: the dispatcher loop of each
mode consults has_notification_been_sent right before each send and skips
the subscriber when it returns true, in the upcoming mode and in the
completed mode alike. -/
theorem dispatcher_skips_recorded_tuple (tr : Int → SendResult) (rows : List NotifRow)
    (chat player : Int) (game : String) (chats : List Int) :
    (has_notification_been_sent (Except.ok rows) chat player game "upcoming" = true →
      chat ∉ (notify_chats_upcoming tr player game chats (Except.ok rows)).1) ∧
    (has_notification_been_sent (Except.ok rows) chat player game "finished" = true →
      chat ∉ (notify_chats_finished tr player game chats (Except.ok rows)).1) := by
  constructor
  · intro h
    exact notify_upcoming_skips_sent tr player chat game chats rows
      (by simpa [has_notification_been_sent] using h)
  · intro h
    exact notify_finished_skips_sent tr player chat game chats rows
      (by simpa [has_notification_been_sent] using h)

/-- C1 witness: with (42, 7, 0012345) marked for both kinds, neither loop
attempts a delivery to chat 42. -/
theorem dispatcher_skips_recorded_tuple_witness :
    42 ∉ (notify_chats_upcoming (fun _ => SendResult.accepted) 7 "0012345" [42]
      (Except.ok [⟨42, 7, "0012345", "upcoming"⟩, ⟨42, 7, "0012345", "finished"⟩])).1 ∧
    42 ∉ (notify_chats_finished (fun _ => SendResult.accepted) 7 "0012345" [42]
      (Except.ok [⟨42, 7, "0012345", "upcoming"⟩, ⟨42, 7, "0012345", "finished"⟩])).1 :=
  ⟨(dispatcher_skips_recorded_tuple (fun _ => SendResult.accepted)
      [⟨42, 7, "0012345", "upcoming"⟩, ⟨42, 7, "0012345", "finished"⟩]
      42 7 "0012345" [42]).1 (by decide),
   (dispatcher_skips_recorded_tuple (fun _ => SendResult.accepted)
      [⟨42, 7, "0012345", "upcoming"⟩, ⟨42, 7, "0012345", "finished"⟩]
      42 7 "0012345" [42]).2 (by decide)⟩

lemma notify_upcoming_error_attempts_all (tr : Int → SendResult) (player : Int)
    (game : String) (e : DbError) (chats : List Int) :
    (notify_chats_upcoming tr player game chats (Except.error e)).1 = chats := by
  induction chats with
  | nil => simp [notify_chats_upcoming]
  | cons c rest ih =>
      have hledger : (match tr c with
          | SendResult.accepted =>
              mark_notification_sent (Except.error e) c player game "upcoming"
          | _ => (Except.error e : Except DbError (List NotifRow))) = Except.error e := by
        cases tr c <;> simp [mark_notification_sent]
      simp [notify_chats_upcoming, has_notification_been_sent, hledger, ih]

/-- C10: a storage error during the ledger lookup makes
has_notification_been_sent return false instead of raising, so the
dispatcher re-attempts delivery for every subscriber in the pass rather
than silently dropping the notification. -/
theorem has_sent_false_on_storage_error (e : DbError) (tr : Int → SendResult)
    (chat player : Int) (game ty : String) (chats : List Int) (h : chat ∈ chats) :
    has_notification_been_sent (Except.error e) chat player game ty = false ∧
    chat ∈ (notify_chats_upcoming tr player game chats (Except.error e)).1 := by
  refine ⟨rfl, ?_⟩
  rw [notify_upcoming_error_attempts_all]
  exact h

/-- C10 witness: the erroring ledger yields false and chat 42 is attempted
again. -/
theorem has_sent_false_on_storage_error_witness :
    has_notification_been_sent (Except.error ⟨"disk I O error"⟩) 42 7 "0012345" "upcoming"
      = false ∧
    42 ∈ (notify_chats_upcoming (fun _ => SendResult.accepted) 7 "0012345" [42]
      (Except.error ⟨"disk I O error"⟩)).1 :=
  has_sent_false_on_storage_error ⟨"disk I O error"⟩ (fun _ => SendResult.accepted)
    42 7 "0012345" "upcoming" [42] (by decide)

/-- C8: in upcoming mode a feed row is selected exactly when its parsed
scheduled time t satisfies start-of-tomorrow <= t < start-of-day-after-
tomorrow, both bounds midnights of the reference timezone, lower bound
inclusive and upper bound exclusive. -/
theorem upcoming_selection_window (now_et : Nat) (rows : List FeedRow) (r : FeedRow) :
    r ∈ select_upcoming now_et rows ↔
      r ∈ rows ∧ ∃ t, parse_game_date r.game_date = some t ∧
        spec_start_of_tomorrow now_et ≤ t ∧ t < spec_start_of_day_after_tomorrow now_et := by
  have h1 : tomorrow_et_start now_et = spec_start_of_tomorrow now_et := by
    unfold tomorrow_et_start spec_start_of_tomorrow start_of_day
    omega
  have h2 : day_after_tomorrow_et_start now_et = spec_start_of_day_after_tomorrow now_et := by
    unfold day_after_tomorrow_et_start spec_start_of_day_after_tomorrow start_of_day
    omega
  rw [select_upcoming, List.mem_filter]
  constructor
  · rintro ⟨hr, hcond⟩
    refine ⟨hr, ?_⟩
    cases hp : parse_game_date r.game_date with
    | none =>
        rw [hp] at hcond
        simp at hcond
    | some t =>
        rw [hp] at hcond
        simp only [] at hcond
        rw [upcoming_filter, Bool.and_eq_true, decide_eq_true_iff, decide_eq_true_iff,
          h1, h2] at hcond
        exact ⟨t, rfl, hcond.1, hcond.2⟩
  · rintro ⟨hr, t, hp, hlo, hhi⟩
    refine ⟨hr, ?_⟩
    rw [hp]
    show upcoming_filter now_et t = true
    rw [upcoming_filter, Bool.and_eq_true, decide_eq_true_iff, decide_eq_true_iff, h1, h2]
    exact ⟨hlo, hhi⟩

/-- C8 witness: a concrete row dated 2025-04-08 is selected when now is
during 2025-04-07 in the reference timezone. -/
theorem upcoming_selection_window_witness :
    (⟨"0012345", "2025-04-08", none⟩ : FeedRow) ∈
      select_upcoming (20185 * 1440 + 600) [⟨"0012345", "2025-04-08", none⟩] :=
  (upcoming_selection_window (20185 * 1440 + 600) [⟨"0012345", "2025-04-08", none⟩]
      ⟨"0012345", "2025-04-08", none⟩).mpr
    ⟨by simp, 29067840, by decide, by decide, by decide⟩

/-- C9: a feed row whose GAME_DATE fails every supported parse format is
excluded from matching in both passes without propagating an error, while
the two tolerated textual encodings both parse (to the same instant) and
are kept. -/
theorem unparseable_row_excluded (now_et yesterday_day : Nat) (rows : List FeedRow)
    (r : FeedRow) (h : parse_game_date r.game_date = none) :
    (r ∉ select_upcoming now_et rows ∧ r ∉ select_finished yesterday_day rows) ∧
    parse_game_date "2025-04-08" = some 29067840 ∧
    parse_game_date "APR 08, 2025" = some 29067840 := by
  refine ⟨⟨?_, ?_⟩, by decide, by decide⟩
  · intro hmem
    rw [select_upcoming, List.mem_filter] at hmem
    have hcond := hmem.2
    rw [h] at hcond
    simp at hcond
  · intro hmem
    rw [select_finished, List.mem_filter] at hmem
    have hcond := hmem.2
    rw [h] at hcond
    simp at hcond

/-- C9 witness: a garbage GAME_DATE is dropped from both passes. -/
theorem unparseable_row_excluded_witness :
    ((⟨"0012345", "not a date", none⟩ : FeedRow) ∉
        select_upcoming 29066400 [⟨"0012345", "not a date", none⟩] ∧
      (⟨"0012345", "not a date", none⟩ : FeedRow) ∉
        select_finished 20185 [⟨"0012345", "not a date", none⟩]) ∧
    parse_game_date "2025-04-08" = some 29067840 ∧
    parse_game_date "APR 08, 2025" = some 29067840 :=
  unparseable_row_excluded 29066400 20185 [⟨"0012345", "not a date", none⟩]
    ⟨"0012345", "not a date", none⟩ (by decide)

/-- The (subscriber, entity) projection of the ledger key. -/
def cp_pred (chat player : Int) (n : NotifRow) : Bool :=
  n.chat_id == chat && n.player_id == player

lemma notif_matches_imp_cp (chat player : Int) (game ty : String) (n : NotifRow)
    (h : notif_matches chat player game ty n = true) : cp_pred chat player n = true := by
  unfold notif_matches at h
  unfold cp_pred
  rw [Bool.and_eq_true, Bool.and_eq_true] at h
  exact h.1.1

lemma counts_after_mark (rows : List NotifRow) (c chat player : Int) (game : String)
    (hany : rows.any (notif_matches c player game "finished") = false)
    (hcp : (rows.filter (cp_pred chat player)).length =
      (rows.filter (notif_matches chat player game "finished")).length)
    (hle : (rows.filter (notif_matches chat player game "finished")).length ≤ 1) :
    ((rows ++ [(⟨c, player, game, "finished"⟩ : NotifRow)]).filter (cp_pred chat player)).length =
      ((rows ++ [(⟨c, player, game, "finished"⟩ : NotifRow)]).filter
        (notif_matches chat player game "finished")).length ∧
    ((rows ++ [(⟨c, player, game, "finished"⟩ : NotifRow)]).filter
      (notif_matches chat player game "finished")).length ≤ 1 := by
  by_cases hchat : c = chat
  · subst hchat
    have hexnil : rows.filter (notif_matches c player game "finished") = [] :=
      any_false_filter_eq_nil _ _ hany
    have hcpx : cp_pred c player (⟨c, player, game, "finished"⟩ : NotifRow) = true := by
      simp [cp_pred]
    have hexx : notif_matches c player game "finished"
        (⟨c, player, game, "finished"⟩ : NotifRow) = true := by
      simp [notif_matches]
    rw [hexnil] at hcp
    simp only [List.length_nil] at hcp
    rw [List.filter_append, List.filter_append, hexnil]
    simp [List.filter_cons, hcpx, hexx, hcp]
  · have hne : (c == chat) = false := by
      simpa using hchat
    have hcpx : cp_pred chat player (⟨c, player, game, "finished"⟩ : NotifRow) = false := by
      simp [cp_pred, hne]
    have hexx : notif_matches chat player game "finished"
        (⟨c, player, game, "finished"⟩ : NotifRow) = false := by
      simp [notif_matches, hne]
    rw [List.filter_append, List.filter_append]
    simp [List.filter_cons, hcpx, hexx, hcp, hle]

lemma notify_finished_cp_invariant (tr : Int → SendResult) (player chat : Int)
    (game : String) (chats : List Int) :
    ∀ rows : List NotifRow,
      (rows.filter (cp_pred chat player)).length =
        (rows.filter (notif_matches chat player game "finished")).length →
      (rows.filter (notif_matches chat player game "finished")).length ≤ 1 →
      ∃ rows1,
        (notify_chats_finished tr player game chats (Except.ok rows)).2 = Except.ok rows1 ∧
        (rows1.filter (cp_pred chat player)).length =
          (rows1.filter (notif_matches chat player game "finished")).length ∧
        (rows1.filter (notif_matches chat player game "finished")).length ≤ 1 := by
  induction chats with
  | nil =>
      intro rows hcp hle
      exact ⟨rows, rfl, hcp, hle⟩
  | cons c rest ih =>
      intro rows hcp hle
      by_cases hc : has_notification_been_sent (Except.ok rows) c player game "finished" = true
      · obtain ⟨rows1, h1, h2, h3⟩ := ih rows hcp hle
        refine ⟨rows1, ?_, h2, h3⟩
        simpa [notify_chats_finished, hc] using h1
      · have hc' : has_notification_been_sent (Except.ok rows) c player game "finished"
            = false := by
          revert hc
          cases has_notification_been_sent (Except.ok rows) c player game "finished" <;> simp
        have hany : rows.any (notif_matches c player game "finished") = false := by
          simpa [has_notification_been_sent] using hc'
        have hstep : ∃ rows2,
            (match tr c with
             | SendResult.accepted =>
                 mark_notification_sent (Except.ok rows) c player game "finished"
             | _ => Except.ok rows) = Except.ok rows2 ∧
            (rows2.filter (cp_pred chat player)).length =
              (rows2.filter (notif_matches chat player game "finished")).length ∧
            (rows2.filter (notif_matches chat player game "finished")).length ≤ 1 := by
          cases tr c with
          | accepted =>
              obtain ⟨hacp, hale⟩ := counts_after_mark rows c chat player game hany hcp hle
              exact ⟨rows ++ [⟨c, player, game, "finished"⟩],
                by simp [mark_notification_sent, hany], hacp, hale⟩
          | forbidden => exact ⟨rows, rfl, hcp, hle⟩
          | badRequest => exact ⟨rows, rfl, hcp, hle⟩
          | otherError => exact ⟨rows, rfl, hcp, hle⟩
        obtain ⟨rows2, hm, h2cp, h2le⟩ := hstep
        obtain ⟨rows1, h1, hcp1, hle1⟩ := ih rows2 h2cp h2le
        refine ⟨rows1, ?_, hcp1, hle1⟩
        simp only [notify_chats_finished, hc', Bool.false_eq_true, if_false, hm]
        exact h1

/-- C7: when the game log for yesterday holds more than one row, only the
first row drives matching and notification - processing the full log
equals processing the one-row log - and, starting from a ledger without
records for the (subscriber, entity) pair, at most one ledger record for
that pair is created, not one per duplicate row; the extra rows are
ignored without an error. -/
theorem finished_first_log_row_only (tr : Int → SendResult) (r : LogRow)
    (rest : List LogRow) (rows0 : List NotifRow) (proc : List (Int × String))
    (player chat : Int) (chats : List Int)
    (h0 : (rows0.filter (cp_pred chat player)).length = 0) :
    process_finished_player tr (r :: rest) (Except.ok rows0) proc player chats =
      process_finished_player tr [r] (Except.ok rows0) proc player chats ∧
    ∃ rows1,
      (process_finished_player tr (r :: rest) (Except.ok rows0) proc player chats).2.1 =
        Except.ok rows1 ∧
      (rows1.filter (cp_pred chat player)).length ≤ 1 := by
  have hex0 : (rows0.filter (notif_matches chat player r.game_id "finished")).length = 0 := by
    have hle := filter_length_le_of_imp (notif_matches chat player r.game_id "finished")
      (cp_pred chat player) rows0 (notif_matches_imp_cp chat player r.game_id "finished")
    omega
  refine ⟨rfl, ?_⟩
  by_cases hp : proc.contains (player, r.game_id) = true
  · have hp2 : (player, r.game_id) ∈ proc := by simpa using hp
    refine ⟨rows0, ?_, by omega⟩
    simp [process_finished_player, hp2]
  · have hp' : proc.contains (player, r.game_id) = false := by
      revert hp
      cases proc.contains (player, r.game_id) <;> simp
    obtain ⟨rows1, h1, hcp1, hle1⟩ :=
      notify_finished_cp_invariant tr player chat r.game_id chats rows0 (by omega) (by omega)
    refine ⟨rows1, ?_, by omega⟩
    simp only [process_finished_player, List.head?_cons, hp', Bool.false_eq_true, if_false]
    exact h1

/-- C7 witness: a duplicated one-game log for player 7 produces the same
result as the single-row log, and the fresh ledger ends with at most one
record for (chat 42, player 7). -/
theorem finished_first_log_row_only_witness :
    process_finished_player (fun _ => SendResult.accepted)
        [⟨"0022400001", "LeBron James"⟩, ⟨"0022400001", "LeBron James"⟩]
        (Except.ok []) [] 7 [42] =
      process_finished_player (fun _ => SendResult.accepted) [⟨"0022400001", "LeBron James"⟩]
        (Except.ok []) [] 7 [42] ∧
    ∃ rows1,
      (process_finished_player (fun _ => SendResult.accepted)
          [⟨"0022400001", "LeBron James"⟩, ⟨"0022400001", "LeBron James"⟩]
          (Except.ok []) [] 7 [42]).2.1 = Except.ok rows1 ∧
      (rows1.filter (cp_pred 42 7)).length ≤ 1 :=
  finished_first_log_row_only (fun _ => SendResult.accepted) ⟨"0022400001", "LeBron James"⟩
    [⟨"0022400001", "LeBron James"⟩] [] [] 7 42 [42] (by decide)

